import Mathlib

/-!
# Verification of the Modular Service Framework (src/app.py, src/run.py)

A shallow embedding of the service registry, lifecycle, configuration
holder and manager of `src/app.py`, together with the driver script
`src/run.py`, and proofs of the specified properties.

Conventions of the embedding:
* Python values appearing as configuration fields are `PyVal`.
* Python exceptions are `PyErr` (`KeyError` / `TypeError`); fallible
  operations return `Except PyErr`.
* Object identity is modelled by an allocation counter: every object
  construction consumes a fresh natural-number id, so two objects are
  the same Python object iff they carry the same id.
* `print` output is modelled as the list of emitted lines, in order.
-/

/-- A single-quote character, used to build Python error/repr strings. -/
def squote : String := String.singleton (Char.ofNat 39)

/-- Python values that can be assigned to the configuration fields. -/
inductive PyVal where
  | vstr (s : String)
  | vint (n : Int)
  | vnone
  deriving DecidableEq, Repr

/-- The Python types used by the `Typed` descriptors in `app.py`: `str` and `int`. -/
inductive PyType where
  | tstr
  | tint
  deriving DecidableEq, Repr

/-- `isinstance(value, expected_type)` for the values and types of this program. -/
def isinstance : PyVal → PyType → Bool
  | .vstr _, .tstr => true
  | .vint _, .tint => true
  | _, _ => false

/-- `str(value)`, as used by f-string interpolation in `app.py`. -/
def pyStr : PyVal → String
  | .vstr s => s
  | .vint n => toString n
  | .vnone => "None"

/-- `repr(type)` for the two descriptor types, e.g. `<class 'str'>`. -/
def typeRepr : PyType → String
  | .tstr => "<class " ++ squote ++ "str" ++ squote ++ ">"
  | .tint => "<class " ++ squote ++ "int" ++ squote ++ ">"

/-- The Python exceptions raised by `app.py`: `KeyError` (service lookup)
and `TypeError` (descriptor validation and bad constructor arity). -/
inductive PyErr where
  | keyError (msg : String)
  | typeError (msg : String)
  deriving DecidableEq, Repr

/-- The `Typed` descriptor of `app.py` (lines 68-79): a named field with an
expected type, enforced on every `__set__`. -/
structure Typed where
  name : String
  expected_type : PyType
  deriving DecidableEq, Repr

/-- `Typed.__set__`: accepts the value iff `isinstance(value, expected_type)`,
otherwise raises `TypeError(f"Expected {expected_type} for {name}")`. -/
def Typed.set (d : Typed) (v : PyVal) : Except PyErr PyVal :=
  if isinstance v d.expected_type then .ok v
  else .error (.typeError ("Expected " ++ typeRepr d.expected_type ++ " for " ++ d.name))

/-- The class attribute `ServerConfig.host = Typed("host", str)`. -/
def hostDescr : Typed := ⟨"host", .tstr⟩

/-- The class attribute `ServerConfig.port = Typed("port", int)`. -/
def portDescr : Typed := ⟨"port", .tint⟩

/-- `ServerConfig` (app.py lines 82-92): a configuration holder whose two
fields are guarded by `Typed` descriptors. A value of this type models an
instance whose two slots have been populated (which is the case for every
instance the constructor ever returns). -/
structure ServerConfig where
  host : PyVal
  port : PyVal
  deriving DecidableEq, Repr

/-- Assignment `config.host = v`, routed through the `host` descriptor. -/
def ServerConfig.setHost (c : ServerConfig) (v : PyVal) : Except PyErr ServerConfig :=
  (hostDescr.set v).map fun w => { c with host := w }

/-- Assignment `config.port = v`, routed through the `port` descriptor. -/
def ServerConfig.setPort (c : ServerConfig) (v : PyVal) : Except PyErr ServerConfig :=
  (portDescr.set v).map fun w => { c with port := w }

/-- `Typed.__get__` reads the stored attribute back: reading `host`. -/
def ServerConfig.getHost (c : ServerConfig) : PyVal := c.host

/-- `Typed.__get__` reads the stored attribute back: reading `port`. -/
def ServerConfig.getPort (c : ServerConfig) : PyVal := c.port

/-- `ServerConfig.__init__(host, port)`: assigns `host` then `port`, each
assignment going through its descriptor, so either may raise `TypeError`. -/
def ServerConfig.init (h p : PyVal) : Except PyErr ServerConfig := do
  let h2 ← hostDescr.set h
  let p2 ← portDescr.set p
  .ok { host := h2, port := p2 }

/-- The service classes defined in `app.py` (all carry the `ServiceRegistry`
metaclass, so defining one triggers registration). -/
inductive ServiceClass where
  | baseService
  | testService
  | emailService
  | notificationService
  deriving DecidableEq, Repr

/-- `cls.__name__` for the classes of `app.py`. -/
def className : ServiceClass → String
  | .baseService => "BaseService"
  | .testService => "TestService"
  | .emailService => "EmailService"
  | .notificationService => "NotificationService"

/-! ## The registry (a Python dict from class name to class) -/

/-- A Python dict with string keys, preserving insertion order. -/
abbrev PyDict (α : Type) := List (String × α)

/-- Dict lookup `d.get(k)`: first (and, for a dict, only) binding wins. -/
def dictGet {α : Type} : PyDict α → String → Option α
  | [], _ => none
  | (k2, v) :: rest, k => if k2 = k then some v else dictGet rest k

/-- Dict assignment `d[k] = v`: overwrite in place if the key exists
(keeping its position, as Python dicts do), else append at the end. -/
def dictInsert {α : Type} : PyDict α → String → α → PyDict α
  | [], k, v => [(k, v)]
  | (k2, v2) :: rest, k, v =>
      if k2 = k then (k, v) :: rest else (k2, v2) :: dictInsert rest k v

/-- The keys of a dict, in order. -/
def dictKeys {α : Type} (d : PyDict α) : List String :=
  d.map Prod.fst

/-- `ServiceRegistry.__new__` (app.py lines 13-18): creating a class named
`name` registers it under that name, unless the name is `"BaseService"`. -/
def registryNew {α : Type} (reg : PyDict α) (name : String) (cls : α) : PyDict α :=
  if name = "BaseService" then reg else dictInsert reg name cls

/-- The registry obtained by executing a sequence of class definitions
(each definition runs `ServiceRegistry.__new__`), starting from the empty
`ServiceRegistry.registry` dict. -/
def defineClasses {α : Type} (defs : List (String × α)) : PyDict α :=
  defs.foldl (fun reg p => registryNew reg p.1 p.2) []

/-- The class definitions executed, in order, when `app.py` is imported. -/
def moduleDefs : List (String × ServiceClass) :=
  [("BaseService", .baseService), ("TestService", .testService),
   ("EmailService", .emailService), ("NotificationService", .notificationService)]

/-- `ServiceRegistry.registry` after `app.py` has been imported. -/
def moduleRegistry : PyDict ServiceClass := defineClasses moduleDefs

/-! ## Service instances, construction, lifecycle output -/

/-- A constructed service instance. `id` is the allocation id (object
identity); a `NotificationService` instance additionally holds the
injected `email_service` object. -/
inductive Obj where
  | simple (id : Nat) (cls : ServiceClass) (config : ServerConfig)
  | notification (id : Nat) (config : ServerConfig) (email_service : Obj)
  deriving DecidableEq, Repr

/-- The identity of an instance. -/
def Obj.id : Obj → Nat
  | .simple i _ _ => i
  | .notification i _ _ => i

/-- The class of an instance. -/
def Obj.cls : Obj → ServiceClass
  | .simple _ c _ => c
  | .notification _ _ _ => .notificationService

/-- Calling a class with one argument, `cls(config)`. Every class whose
`__init__` is `BaseService.__init__` accepts this; `NotificationService`
requires a second positional argument `email_service`, so the call raises
`TypeError`. On success the new object consumes the allocation counter. -/
def call1 (cls : ServiceClass) (config : ServerConfig) (ctr : Nat) :
    Except PyErr (Obj × Nat) :=
  match cls with
  | .notificationService =>
      .error (.typeError ("__init__() missing 1 required positional argument: "
        ++ squote ++ "email_service" ++ squote))
  | c => .ok (.simple ctr c config, ctr + 1)

/-- Calling a class with two arguments, `cls(config, email_svc)`. Only
`NotificationService.__init__` accepts two positional arguments; the other
classes inherit `BaseService.__init__(self, config=None)` and raise
`TypeError`. -/
def call2 (cls : ServiceClass) (config : ServerConfig) (email_svc : Obj) (ctr : Nat) :
    Except PyErr (Obj × Nat) :=
  match cls with
  | .notificationService => .ok (.notification ctr config email_svc, ctr + 1)
  | _ => .error (.typeError "__init__() takes from 1 to 2 positional arguments but 3 were given")

/-- `LoggerMixin.log(message)` prints `[LOG]: {message}` (app.py lines 63-65). -/
def logLine (message : String) : String := "[LOG]: " ++ message

/-- The lines printed by `instance.start()`: `on_startup()` output followed
by the `"<Cls> started."` announcement. `NotificationService.on_startup`
logs its running message and then starts its email dependency. -/
def Obj.startLines : Obj → List String
  | .simple _ cls _ =>
      (match cls with
       | .testService => ["TestService is starting up..."]
       | .emailService => ["Connecting to SMTP..."]
       | _ => []) ++ [className cls ++ " started."]
  | .notification _ config dep =>
      (logLine ("Notification service running at "
          ++ pyStr config.host ++ ":" ++ pyStr config.port)
        :: dep.startLines) ++ ["NotificationService started."]

/-- The lines printed by `instance.stop()`: `on_shutdown()` output followed
by the `"<Cls> stopped."` announcement. `NotificationService.on_shutdown`
logs `"Notification stopping..."` and then stops its email dependency. -/
def Obj.stopLines : Obj → List String
  | .simple _ cls _ =>
      (match cls with
       | .testService => ["TestService is shutting down..."]
       | .emailService => ["Closing SMTP..."]
       | _ => []) ++ [className cls ++ " stopped."]
  | .notification _ _ dep =>
      (logLine "Notification stopping..." :: dep.stopLines) ++ ["NotificationService stopped."]

/-- The object ids on which `start()` is invoked when `instance.start()`
runs, in call order: the instance itself first, then (for a
`NotificationService`) the ids reached through `email_service.start()`. -/
def Obj.startCalls : Obj → List Nat
  | .simple i _ _ => [i]
  | .notification i _ dep => i :: dep.startCalls

/-- The object ids on which `stop()` is invoked when `instance.stop()`
runs, in call order. -/
def Obj.stopCalls : Obj → List Nat
  | .simple i _ _ => [i]
  | .notification i _ dep => i :: dep.stopCalls

/-! ## The ServiceManager -/

/-- `ServiceManager.get_service(name, config)` (app.py lines 138-142),
over an explicit registry and allocation counter: look the name up; if a
class is found construct it with `config` alone, otherwise raise
`KeyError(f"Service {name!r} not found")`. -/
def getService (reg : PyDict ServiceClass) (name : String) (config : ServerConfig)
    (ctr : Nat) : Except PyErr (Obj × Nat) :=
  match dictGet reg name with
  | some cls => call1 cls config ctr
  | none => .error (.keyError ("Service " ++ squote ++ name ++ squote ++ " not found"))

/-- The loop body of `ServiceManager.load_services` (app.py lines 127-136),
recursing over the registry items still to process. `reg` is the full
registry (used by the inner `get_service` lookup), `insts` the instances
accumulated so far, `ctr` the allocation counter. -/
def loadLoop (reg : PyDict ServiceClass) (config : ServerConfig) :
    List (String × ServiceClass) → List Obj → Nat → Except PyErr (List Obj × Nat)
  | [], insts, ctr => .ok (insts, ctr)
  | (name, service_cls) :: items, insts, ctr =>
      if name = "NotificationService" then
        match getService reg "EmailService" config ctr with
        | .error e => .error e
        | .ok (email_svc, c1) =>
            match call2 service_cls config email_svc c1 with
            | .error e => .error e
            | .ok (inst, c2) => loadLoop reg config items (insts ++ [inst]) c2
      else
        match call1 service_cls config ctr with
        | .error e => .error e
        | .ok (inst, c1) => loadLoop reg config items (insts ++ [inst]) c1

/-- The mutable process state visible to the manager: the class registry,
the manager's `instances` list and the allocation counter. -/
structure PState where
  registry : PyDict ServiceClass
  instances : List Obj
  ctr : Nat
  deriving DecidableEq, Repr

/-- `manager.load_services(config)`: iterate over `self.registry.items()`,
construct one instance per entry (wiring `NotificationService` specially)
and append each to `self.instances`. -/
def PState.load_services (st : PState) (config : ServerConfig) : Except PyErr PState :=
  (loadLoop st.registry config st.registry st.instances st.ctr).map fun r =>
    { st with instances := r.1, ctr := r.2 }

/-- `manager.get_service(name, config)` at the state level: returns the new
instance and the successor state. -/
def PState.get_service (st : PState) (name : String) (config : ServerConfig) :
    Except PyErr (Obj × PState) :=
  (getService st.registry name config st.ctr).map fun r => (r.1, { st with ctr := r.2 })

/-- `manager.start_all()`: the printed lines, iterating instances in order. -/
def startAllLines (insts : List Obj) : List String :=
  insts.flatMap Obj.startLines

/-- `manager.stop_all()`: the printed lines, iterating instances in order. -/
def stopAllLines (insts : List Obj) : List String :=
  insts.flatMap Obj.stopLines

/-- The `start()` invocations performed by `manager.start_all()`, as object
ids in call order. -/
def startAllCalls (insts : List Obj) : List Nat :=
  insts.flatMap Obj.startCalls

/-- The `stop()` invocations performed by `manager.stop_all()`, as object
ids in call order. -/
def stopAllCalls (insts : List Obj) : List Nat :=
  insts.flatMap Obj.stopCalls

/-- A lifecycle invocation on a given object id. -/
inductive Call where
  | start (id : Nat)
  | stop (id : Nat)
  deriving DecidableEq, Repr

/-- The full invocation trace of `start_all()` followed by `stop_all()`. -/
def runTrace (insts : List Obj) : List Call :=
  (startAllCalls insts).map Call.start ++ (stopAllCalls insts).map Call.stop

/-! ## The driver script `run.py` -/

/-- `config = ServerConfig("localhost", 8000)` in `run.py`. -/
def demoConfig : ServerConfig := ⟨.vstr "localhost", .vint 8000⟩

/-- `manager = ServiceManager()` in `run.py`: fresh instances list, with the
module registry, starting the allocation counter at 0. -/
def demoState : PState := ⟨moduleRegistry, [], 0⟩

/-- The instances list after `manager.load_services(config)` in `run.py`
(the call succeeds; see `demo_load_ok`). -/
def demoInstances : List Obj :=
  match demoState.load_services demoConfig with
  | .ok st => st.instances
  | .error _ => []

/-- `a` occurs strictly before some later occurrence of `b` in the list. -/
def occursBefore (a b : String) : List String → Bool
  | [] => false
  | l :: rest => if l = a then rest.contains b else occursBefore a b rest

/-- The last class defined under a given name in a sequence of class
definitions (specification vocabulary for the overwrite property). -/
def lastDef {α : Type} : List (String × α) → String → Option α
  | [], _ => none
  | (k, v) :: rest, n =>
      match lastDef rest n with
      | some w => some w
      | none => if k = n then some v else none

/-! ## The scoped-resource (context manager) protocol of BaseService -/

/-- A lifecycle invocation observed while a service is used as a scoped
resource. -/
inductive LifeEvent where
  | startCalled (id : Nat)
  | stopCalled (id : Nat)
  deriving DecidableEq, Repr

/-- A service with abstract lifecycle hooks, for reasoning about the
context-manager protocol: `on_startup` / `on_shutdown` either return
normally (`none`) or raise (`some e`). `BaseService.start` runs
`on_startup()` first, so an exception from the hook propagates out of
`start()`; likewise for `stop()`. -/
structure HookedService where
  id : Nat
  on_startup : Option PyErr
  on_shutdown : Option PyErr
  deriving DecidableEq, Repr

/-- The outcome of `self.start()`: `BaseService.start` calls `on_startup()`
and then prints; any exception from the hook propagates uncaught. -/
def HookedService.startResult (s : HookedService) : Option PyErr := s.on_startup

/-- The outcome of `self.stop()`: `BaseService.stop` calls `on_shutdown()`
and then prints; any exception from the hook propagates uncaught. -/
def HookedService.stopResult (s : HookedService) : Option PyErr := s.on_shutdown

/-- `with service: body` under Python semantics with
`BaseService.__enter__` (calls `self.start()`) and `BaseService.__exit__`
(calls `self.stop()`, returns `None`): if `__enter__` raises, the scope is
never entered and `__exit__` does not run; otherwise `__exit__` runs on
every exit path, and an exception raised by `stop()` replaces the body's
exception, while a body exception propagates when `stop()` returns
normally (since `__exit__` returns a falsy value). The result is the list
of lifecycle invocations together with the escaping exception, if any. -/
def withStatement (svc : HookedService) (body : Option PyErr) :
    List LifeEvent × Option PyErr :=
  match svc.startResult with
  | some e => ([.startCalled svc.id], some e)
  | none =>
      ([.startCalled svc.id, .stopCalled svc.id],
       match svc.stopResult with
       | some e2 => some e2
       | none => body)

/-! ## Lemmas: the registry dict -/

theorem dictGet_insert {α : Type} (d : PyDict α) (k m : String) (v : α) :
    dictGet (dictInsert d k v) m = if k = m then some v else dictGet d m := by
  induction d with
  | nil => simp [dictInsert, dictGet]
  | cons p rest ih =>
      obtain ⟨k2, v2⟩ := p
      by_cases h : k2 = k
      · subst h
        by_cases hm : k2 = m <;> simp [dictInsert, dictGet, hm]
      · by_cases hm : k2 = m
        · subst hm
          have hk : ¬ k = k2 := fun hh => h hh.symm
          simp [dictInsert, dictGet, h, hk]
        · simp [dictInsert, dictGet, h, hm, ih]

theorem mem_dictKeys_insert {α : Type} (d : PyDict α) (k m : String) (v : α) :
    m ∈ dictKeys (dictInsert d k v) ↔ m = k ∨ m ∈ dictKeys d := by
  induction d with
  | nil => simp [dictInsert, dictKeys]
  | cons p rest ih =>
      obtain ⟨k2, v2⟩ := p
      by_cases h : k2 = k
      · subst h
        have hins : dictInsert ((k2, v2) :: rest) k2 v = (k2, v) :: rest := by
          simp [dictInsert]
        rw [hins]
        simp [dictKeys]
      · simp [dictInsert, dictKeys, h] at ih ⊢
        tauto

theorem nodup_dictKeys_insert {α : Type} (d : PyDict α) (k : String) (v : α)
    (h : (dictKeys d).Nodup) : (dictKeys (dictInsert d k v)).Nodup := by
  induction d with
  | nil => simp [dictInsert, dictKeys]
  | cons p rest ih =>
      obtain ⟨k2, v2⟩ := p
      simp only [dictKeys, List.map_cons, List.nodup_cons] at h
      by_cases hk : k2 = k
      · subst hk
        simpa [dictInsert, dictKeys] using h
      · have h2 : k2 ∉ dictKeys (dictInsert rest k v) := by
          rw [mem_dictKeys_insert]
          rintro (rfl | hmem)
          · exact hk rfl
          · exact h.1 (by simpa [dictKeys] using hmem)
        simp only [dictInsert, hk, if_false, dictKeys, List.map_cons, List.nodup_cons]
        exact ⟨by simpa [dictKeys] using h2, ih h.2⟩

theorem defineClasses_go {α : Type} (defs : List (String × α)) (r : PyDict α)
    (n : String) (hn : n ≠ "BaseService") :
    dictGet (defs.foldl (fun reg p => registryNew reg p.1 p.2) r) n =
      match lastDef defs n with
      | some w => some w
      | none => dictGet r n := by
  induction defs generalizing r with
  | nil => simp [lastDef]
  | cons p rest ih =>
      obtain ⟨k, v⟩ := p
      simp only [List.foldl_cons]
      rw [ih]
      cases h : lastDef rest n with
      | some w => simp [lastDef, h]
      | none =>
          simp only [lastDef, h]
          unfold registryNew
          by_cases hk : k = "BaseService"
          · have hbn : ¬ "BaseService" = n := fun hh => hn hh.symm
            simp [hk, hbn]
          · rw [if_neg hk, dictGet_insert]
            by_cases hkn : k = n <;> simp [hkn]

theorem defineClasses_inv {α : Type} (defs : List (String × α)) (r : PyDict α)
    (h1 : (dictKeys r).Nodup) (h2 : "BaseService" ∉ dictKeys r) :
    (dictKeys (defs.foldl (fun reg p => registryNew reg p.1 p.2) r)).Nodup ∧
      "BaseService" ∉ dictKeys (defs.foldl (fun reg p => registryNew reg p.1 p.2) r) := by
  induction defs generalizing r with
  | nil => exact ⟨h1, h2⟩
  | cons p rest ih =>
      obtain ⟨k, v⟩ := p
      simp only [List.foldl_cons]
      refine ih (registryNew r k v) ?_ ?_
      · unfold registryNew
        by_cases hk : k = "BaseService"
        · simpa [hk] using h1
        · rw [if_neg hk]
          exact nodup_dictKeys_insert r k v h1
      · unfold registryNew
        by_cases hk : k = "BaseService"
        · simpa [hk] using h2
        · rw [if_neg hk, mem_dictKeys_insert]
          rintro (hb | hb)
          · exact hk hb.symm
          · exact h2 hb

theorem lastDef_isSome_of_mem {α : Type} (defs : List (String × α)) (k : String)
    (v : α) (h : (k, v) ∈ defs) : (lastDef defs k).isSome := by
  induction defs with
  | nil => simp at h
  | cons p rest ih =>
      obtain ⟨k2, v2⟩ := p
      rcases List.mem_cons.mp h with heq | hmem
      · cases heq
        cases hl : lastDef rest k <;> simp [lastDef, hl]
      · have hs := ih hmem
        cases hl : lastDef rest k
        · rw [hl] at hs
          simp at hs
        · simp [lastDef, hl]

/-- C3: after definition-time registration the registry has exactly one
entry per distinct non-`BaseService` class name, `BaseService` is never
registered, looking up a name yields the class from the last definition
carrying that name (silent overwrite), and every defined non-`BaseService`
name is present. -/
theorem c3_registration_unique_overwrite {α : Type} (defs : List (String × α)) :
    (dictKeys (defineClasses defs)).Nodup ∧
    "BaseService" ∉ dictKeys (defineClasses defs) ∧
    (∀ n, n ≠ "BaseService" → dictGet (defineClasses defs) n = lastDef defs n) ∧
    (∀ k v, (k, v) ∈ defs → k ≠ "BaseService" →
      (dictGet (defineClasses defs) k).isSome) := by
  have hinv := defineClasses_inv defs [] (by simp [dictKeys]) (by simp [dictKeys])
  have hget : ∀ n, n ≠ "BaseService" → dictGet (defineClasses defs) n = lastDef defs n := by
    intro n hn
    unfold defineClasses
    rw [defineClasses_go defs [] n hn]
    cases h : lastDef defs n <;> simp [dictGet]
  refine ⟨hinv.1, hinv.2, hget, ?_⟩
  intro k v hmem hk
  rw [hget k hk]
  exact lastDef_isSome_of_mem defs k v hmem

/-! ## Lemmas: construction and load_services -/

theorem call1_ok {cls : ServiceClass} {config : ServerConfig} {ctr : Nat}
    {o : Obj} {c2 : Nat} (h : call1 cls config ctr = .ok (o, c2)) :
    c2 = ctr + 1 ∧ o = .simple ctr cls config ∧ cls ≠ .notificationService := by
  cases cls <;> simp_all [call1]

theorem call2_ok {cls : ServiceClass} {config : ServerConfig} {dep : Obj}
    {ctr : Nat} {o : Obj} {c2 : Nat} (h : call2 cls config dep ctr = .ok (o, c2)) :
    c2 = ctr + 1 ∧ o = .notification ctr config dep := by
  cases cls <;> simp_all [call2]

theorem getService_ok {reg : PyDict ServiceClass} {name : String}
    {config : ServerConfig} {ctr : Nat} {o : Obj} {c2 : Nat}
    (h : getService reg name config ctr = .ok (o, c2)) :
    ∃ cls, dictGet reg name = some cls ∧ call1 cls config ctr = .ok (o, c2) := by
  unfold getService at h
  cases hg : dictGet reg name with
  | none => rw [hg] at h; exact absurd h (by simp)
  | some cls => rw [hg] at h; exact ⟨cls, rfl, h⟩

theorem id_mem_startCalls (o : Obj) : o.id ∈ o.startCalls := by
  cases o <;> simp [Obj.id, Obj.startCalls]

theorem stopCalls_eq_startCalls (o : Obj) : o.stopCalls = o.startCalls := by
  induction o with
  | simple i cls config => rfl
  | notification i config dep ih => simp [Obj.startCalls, Obj.stopCalls, ih]

/-- Two instances whose transitive `start()` call sets share no object id. -/
def CallsDisjoint (a b : Obj) : Prop :=
  ∀ i ∈ a.startCalls, i ∉ b.startCalls

theorem callsDisjoint_symm : Symmetric CallsDisjoint :=
  fun _ _ hab i hib hia => hab i hia hib

/-- The structural invariant of the `load_services` loop: on success it
appends one freshly constructed instance per remaining registry item, the
allocation counter only grows, and all object ids allocated by the call
(including injected dependencies) are fresh, pairwise distinct, and lie in
the consumed counter range. -/
theorem loadLoop_spec (reg : PyDict ServiceClass) (config : ServerConfig)
    (items : List (String × ServiceClass)) (insts : List Obj) (ctr : Nat)
    (insts2 : List Obj) (ctr2 : Nat)
    (h : loadLoop reg config items insts ctr = .ok (insts2, ctr2)) :
    ∃ news : List Obj,
      insts2 = insts ++ news ∧
      news.length = items.length ∧
      ctr ≤ ctr2 ∧
      (∀ i ∈ news.flatMap Obj.startCalls, ctr ≤ i ∧ i < ctr2) ∧
      (news.flatMap Obj.startCalls).Nodup ∧
      news.Pairwise CallsDisjoint := by
  induction items generalizing insts ctr with
  | nil =>
      simp only [loadLoop, Except.ok.injEq, Prod.mk.injEq] at h
      obtain ⟨rfl, rfl⟩ := h
      exact ⟨[], by simp, rfl, le_refl _, by simp, by simp, by simp⟩
  | cons entry items ih =>
      obtain ⟨name, service_cls⟩ := entry
      by_cases hname : name = "NotificationService"
      · rw [loadLoop, if_pos hname] at h
        split at h
        · exact absurd h (by simp)
        · rename_i email_svc c1 hg
          split at h
          · exact absurd h (by simp)
          · rename_i inst c2 hc
            obtain ⟨news, h1, h2, h3, h4, h5, h6⟩ := ih _ _ h
            obtain ⟨rfl, rfl⟩ := call2_ok hc
            obtain ⟨cls0, _, hcall1⟩ := getService_ok hg
            obtain ⟨rfl, rfl, _⟩ := call1_ok hcall1
            refine ⟨_ :: news, by simpa using h1, by simpa using h2,
              le_trans (by omega) h3, ?_, ?_, ?_⟩
            · intro i hi
              simp only [List.flatMap_cons, List.mem_append] at hi
              rcases hi with hi | hi
              · simp [Obj.startCalls] at hi
                rcases hi with rfl | rfl <;> omega
              · have := h4 i hi
                omega
            · rw [List.flatMap_cons, List.nodup_append]
              refine ⟨by simp [Obj.startCalls], h5, ?_⟩
              intro i hi hi2
              have := h4 i hi2
              simp [Obj.startCalls] at hi
              rcases hi with rfl | rfl <;> omega
            · rw [List.pairwise_cons]
              refine ⟨?_, h6⟩
              intro b hb i hi hib
              have hbnd := h4 i (List.mem_flatMap.mpr ⟨b, hb, hib⟩)
              simp [Obj.startCalls] at hi
              rcases hi with rfl | rfl <;> omega
      · rw [loadLoop, if_neg hname] at h
        split at h
        · exact absurd h (by simp)
        · rename_i inst c1 hc
          obtain ⟨news, h1, h2, h3, h4, h5, h6⟩ := ih _ _ h
          obtain ⟨rfl, rfl, _⟩ := call1_ok hc
          refine ⟨_ :: news, by simpa using h1, by simpa using h2,
            le_trans (by omega) h3, ?_, ?_, ?_⟩
          · intro i hi
            simp only [List.flatMap_cons, List.mem_append] at hi
            rcases hi with hi | hi
            · simp [Obj.startCalls] at hi
              omega
            · have := h4 i hi
              omega
          · rw [List.flatMap_cons, List.nodup_append]
            refine ⟨by simp [Obj.startCalls], h5, ?_⟩
            intro i hi hi2
            have := h4 i hi2
            simp [Obj.startCalls] at hi
            omega
          · rw [List.pairwise_cons]
            refine ⟨?_, h6⟩
            intro b hb i hi hib
            have hbnd := h4 i (List.mem_flatMap.mpr ⟨b, hb, hib⟩)
            simp [Obj.startCalls] at hi
            omega

/-- `load_services` at the state level: registry untouched, instances
extended by one fresh instance per registry entry. -/
theorem load_services_spec {st : PState} {config : ServerConfig} {st2 : PState}
    (h : st.load_services config = .ok st2) :
    ∃ news : List Obj,
      st2.registry = st.registry ∧
      st2.instances = st.instances ++ news ∧
      news.length = st.registry.length ∧
      st.ctr ≤ st2.ctr ∧
      (∀ i ∈ news.flatMap Obj.startCalls, st.ctr ≤ i ∧ i < st2.ctr) ∧
      (news.flatMap Obj.startCalls).Nodup ∧
      news.Pairwise CallsDisjoint := by
  unfold PState.load_services at h
  cases hl : loadLoop st.registry config st.registry st.instances st.ctr with
  | error e => rw [hl] at h; exact absurd h (by simp [Except.map])
  | ok p =>
      obtain ⟨insts2, ctr2⟩ := p
      rw [hl] at h
      simp only [Except.map] at h
      obtain ⟨news, h1, h2, h3, h4, h5, h6⟩ :=
        loadLoop_spec st.registry config st.registry st.instances st.ctr insts2 ctr2 hl
      injection h with h
      exact ⟨news, by rw [← h], by rw [← h]; exact h1, h2, by rw [← h]; exact h3,
        by rw [← h]; exact h4, h5, h6⟩

/-- C3 witness: the registration property applied to the concrete class
definitions of `app.py`. -/
theorem c3_registration_witness :
    "BaseService" ∉ dictKeys (defineClasses moduleDefs) ∧
    dictGet (defineClasses moduleDefs) "EmailService" = lastDef moduleDefs "EmailService" :=
  ⟨(c3_registration_unique_overwrite moduleDefs).2.1,
   (c3_registration_unique_overwrite moduleDefs).2.2.1 "EmailService" (by decide)⟩

theorem stopAllCalls_eq_startAllCalls (l : List Obj) :
    stopAllCalls l = startAllCalls l := by
  unfold stopAllCalls startAllCalls
  induction l with
  | nil => rfl
  | cons o l ih => simp [List.flatMap_cons, ih, stopCalls_eq_startCalls]

theorem start_injective : Function.Injective Call.start := by
  intro a b h
  injection h

theorem stop_injective : Function.Injective Call.stop := by
  intro a b h
  injection h

/-- C5: after `load_services` on a fresh manager, `start_all` followed by
`stop_all` invokes exactly one `start()` and exactly one `stop()` on each
instance of the manager's instances list, the unique start invocation
preceding the unique stop invocation. -/
theorem c5_one_start_one_stop_each (st : PState) (config : ServerConfig)
    (st2 : PState) (hempty : st.instances = [])
    (h : st.load_services config = .ok st2) :
    ∀ o ∈ st2.instances,
      (runTrace st2.instances).count (Call.start o.id) = 1 ∧
      (runTrace st2.instances).count (Call.stop o.id) = 1 ∧
      ∃ pre post, runTrace st2.instances = pre ++ post ∧
        Call.start o.id ∈ pre ∧ Call.stop o.id ∉ pre ∧
        Call.stop o.id ∈ post ∧ Call.start o.id ∉ post := by
  obtain ⟨news, _, hinst, _, _, _, hnodup, _⟩ := load_services_spec h
  rw [hempty, List.nil_append] at hinst
  rw [hinst]
  intro o ho
  have hmem : o.id ∈ news.flatMap Obj.startCalls :=
    List.mem_flatMap.mpr ⟨o, ho, id_mem_startCalls o⟩
  have hcount : (news.flatMap Obj.startCalls).count o.id = 1 :=
    List.count_eq_one_of_mem hnodup hmem
  have hS : startAllCalls news = news.flatMap Obj.startCalls := rfl
  have hT : stopAllCalls news = news.flatMap Obj.startCalls := by
    rw [stopAllCalls_eq_startAllCalls]
    exact hS
  have hstartzero : ((stopAllCalls news).map Call.stop).count (Call.start o.id) = 0 := by
    rw [List.count_eq_zero]
    intro hc
    obtain ⟨a, _, ha⟩ := List.mem_map.mp hc
    exact absurd ha (by simp)
  have hstopzero : ((startAllCalls news).map Call.start).count (Call.stop o.id) = 0 := by
    rw [List.count_eq_zero]
    intro hc
    obtain ⟨a, _, ha⟩ := List.mem_map.mp hc
    exact absurd ha (by simp)
  refine ⟨?_, ?_, ?_⟩
  · rw [runTrace, List.count_append, hstartzero,
      List.count_map_of_injective _ Call.start start_injective, hS, hcount]
  · rw [runTrace, List.count_append, hstopzero,
      List.count_map_of_injective _ Call.stop stop_injective, hT, hcount, Nat.zero_add]
  · refine ⟨(startAllCalls news).map Call.start, (stopAllCalls news).map Call.stop,
      rfl, ?_, ?_, ?_, ?_⟩
    · exact List.mem_map.mpr ⟨o.id, by rw [hS]; exact hmem, rfl⟩
    · intro hc
      obtain ⟨a, _, ha⟩ := List.mem_map.mp hc
      exact absurd ha (by simp)
    · exact List.mem_map.mpr ⟨o.id, by rw [hT]; exact hmem, rfl⟩
    · intro hc
      obtain ⟨a, _, ha⟩ := List.mem_map.mp hc
      exact absurd ha (by simp)

/-- C5 witness: the start/stop discipline at the concrete run of `run.py`,
checked for the TestService instance (id 0). -/
theorem c5_witness :
    (runTrace demoInstances).count (Call.start 0) = 1 ∧
    (runTrace demoInstances).count (Call.stop 0) = 1 ∧
    ∃ pre post, runTrace demoInstances = pre ++ post ∧
      Call.start 0 ∈ pre ∧ Call.stop 0 ∉ pre ∧
      Call.stop 0 ∈ post ∧ Call.start 0 ∉ post :=
  c5_one_start_one_stop_each demoState demoConfig ⟨moduleRegistry, demoInstances, 4⟩
    rfl rfl (Obj.simple 0 .testService demoConfig) (by decide)

/-- C2: whenever `load_services` constructs a `NotificationService`, the
injected `EmailService` dependency is freshly allocated during that call
and is a different object from every `EmailService` instance stored in the
manager's instances list. -/
theorem c2_injected_dependency_distinct (st : PState) (config : ServerConfig)
    (st2 : PState)
    (hfresh : ∀ o ∈ st.instances, ∀ i ∈ Obj.startCalls o, i < st.ctr)
    (h : st.load_services config = .ok st2) :
    ∃ news, st2.instances = st.instances ++ news ∧
      ∀ nid ncfg dep, Obj.notification nid ncfg dep ∈ news →
        st.ctr ≤ dep.id ∧
        ∀ o ∈ st2.instances, o.cls = .emailService → o.id ≠ dep.id := by
  obtain ⟨news, _, hinst, _, _, hbnd, _, hpair⟩ := load_services_spec h
  refine ⟨news, hinst, ?_⟩
  intro nid ncfg dep hmem
  have hdepmem : dep.id ∈ (Obj.notification nid ncfg dep).startCalls := by
    simp only [Obj.startCalls, List.mem_cons]
    exact Or.inr (id_mem_startCalls dep)
  have hdepbnd := hbnd dep.id (List.mem_flatMap.mpr ⟨_, hmem, hdepmem⟩)
  refine ⟨hdepbnd.1, ?_⟩
  intro o ho hocls hoeq
  rw [hinst] at ho
  rcases List.mem_append.mp ho with hold | hnew
  · have := hfresh o hold o.id (id_mem_startCalls o)
    omega
  · have hne : Obj.notification nid ncfg dep ≠ o := by
      intro he
      rw [← he] at hocls
      simp [Obj.cls] at hocls
    have hR := List.Pairwise.forall callsDisjoint_symm hpair hmem hnew hne
    exact hR dep.id hdepmem (hoeq ▸ id_mem_startCalls o)

/-- C2 witness: in the concrete run, the notification instance's injected
dependency (id 2) differs from the manager-held EmailService (id 1). -/
theorem c2_witness :
    ∃ news, demoInstances = demoState.instances ++ news ∧
      ∀ nid ncfg dep, Obj.notification nid ncfg dep ∈ news →
        demoState.ctr ≤ dep.id ∧
        ∀ o ∈ demoInstances, o.cls = .emailService → o.id ≠ dep.id :=
  c2_injected_dependency_distinct demoState demoConfig
    ⟨moduleRegistry, demoInstances, 4⟩
    (by intro o ho; simp [demoState] at ho) rfl

/-- C10: a successful `load_services` never clears `instances`: it appends
exactly one instance per registry entry after the previously stored ones,
so two successful calls on an initially fresh manager leave twice the
registry's size. -/
theorem c10_load_services_appends (st st1 st2 : PState) (cfg1 cfg2 : ServerConfig)
    (h1 : st.load_services cfg1 = .ok st1) (h2 : st1.load_services cfg2 = .ok st2) :
    (∃ n1, st1.instances = st.instances ++ n1 ∧ n1.length = st.registry.length) ∧
    (∃ n2, st2.instances = st1.instances ++ n2 ∧ n2.length = st.registry.length) ∧
    (st.instances = [] → st2.instances.length = 2 * st.registry.length) := by
  obtain ⟨n1, hr1, hi1, hl1, _⟩ := load_services_spec h1
  obtain ⟨n2, hr2, hi2, hl2, _⟩ := load_services_spec h2
  rw [hr1] at hl2
  refine ⟨⟨n1, hi1, hl1⟩, ⟨n2, hi2, hl2⟩, ?_⟩
  intro hempty
  rw [hi2, hi1, hempty]
  simp only [List.nil_append, List.length_append]
  omega

/-- C10 witness: loading twice from the fresh `run.py` manager yields six
instances for the three-entry registry. -/
theorem c10_witness :
    (∃ n1, demoInstances = demoState.instances ++ n1 ∧
      n1.length = demoState.registry.length) ∧
    (∃ n2, (demoInstances ++
        [Obj.simple 4 .testService demoConfig, Obj.simple 5 .emailService demoConfig,
         Obj.notification 7 demoConfig (Obj.simple 6 .emailService demoConfig)]) =
      demoInstances ++ n2 ∧ n2.length = demoState.registry.length) ∧
    (demoState.instances = [] →
      (demoInstances ++
        [Obj.simple 4 .testService demoConfig, Obj.simple 5 .emailService demoConfig,
         Obj.notification 7 demoConfig (Obj.simple 6 .emailService demoConfig)]).length =
        2 * demoState.registry.length) :=
  c10_load_services_appends demoState ⟨moduleRegistry, demoInstances, 4⟩
    ⟨moduleRegistry, demoInstances ++
      [Obj.simple 4 .testService demoConfig, Obj.simple 5 .emailService demoConfig,
       Obj.notification 7 demoConfig (Obj.simple 6 .emailService demoConfig)], 8⟩
    demoConfig demoConfig rfl rfl

/-- C9: a successful `get_service` is effect-free on the manager: it leaves
both the `instances` list and the registry exactly as they were (the
constructed instance is only returned, never appended). -/
theorem c9_get_service_frame (st : PState) (name : String) (config : ServerConfig)
    (o : Obj) (st2 : PState) (h : st.get_service name config = .ok (o, st2)) :
    st2.instances = st.instances ∧ st2.registry = st.registry := by
  unfold PState.get_service at h
  cases hg : getService st.registry name config st.ctr with
  | error e => rw [hg] at h; exact absurd h (by simp [Except.map])
  | ok p =>
      rw [hg] at h
      simp only [Except.map, Except.ok.injEq, Prod.mk.injEq] at h
      obtain ⟨-, h2⟩ := h
      rw [← h2]
      exact ⟨rfl, rfl⟩

/-- C9 witness: the frame property at a concrete successful lookup. -/
theorem c9_witness :
    (⟨moduleRegistry, [], 1⟩ : PState).instances = demoState.instances ∧
    (⟨moduleRegistry, [], 1⟩ : PState).registry = demoState.registry :=
  c9_get_service_frame demoState "EmailService" demoConfig
    (Obj.simple 0 .emailService demoConfig) ⟨moduleRegistry, [], 1⟩ rfl

theorem loadLoop_append (reg : PyDict ServiceClass) (config : ServerConfig)
    (xs ys : List (String × ServiceClass)) (insts : List Obj) (ctr : Nat) :
    loadLoop reg config (xs ++ ys) insts ctr =
      match loadLoop reg config xs insts ctr with
      | .ok (insts1, ctr1) => loadLoop reg config ys insts1 ctr1
      | .error e => .error e := by
  induction xs generalizing insts ctr with
  | nil => simp [loadLoop]
  | cons entry xs ih =>
      obtain ⟨name, service_cls⟩ := entry
      by_cases hname : name = "NotificationService"
      · rw [List.cons_append]
        rw [loadLoop, if_pos hname]
        conv_rhs => rw [loadLoop, if_pos hname]
        cases hg : getService reg "EmailService" config ctr with
        | error e => rfl
        | ok p =>
            obtain ⟨email_svc, c1⟩ := p
            cases hc : call2 service_cls config email_svc c1 with
            | error e => simp only [hc]
            | ok q =>
                obtain ⟨inst, c2⟩ := q
                simp only [hc]
                exact ih _ _
      · rw [List.cons_append]
        rw [loadLoop, if_neg hname]
        conv_rhs => rw [loadLoop, if_neg hname]
        cases hc : call1 service_cls config ctr with
        | error e => rfl
        | ok p =>
            obtain ⟨inst, c1⟩ := p
            simp only [hc]
            exact ih _ _

/-- C6: if `"EmailService"` is absent from the registry at the moment
`load_services` reaches (and starts wiring) a registry entry named
`"NotificationService"`, the whole call fails with
`KeyError("Service 'EmailService' not found")`. -/
theorem c6_wiring_missing_email (st : PState) (config : ServerConfig)
    (pre : List (String × ServiceClass)) (c : ServiceClass)
    (rest : List (String × ServiceClass)) (insts1 : List Obj) (ctr1 : Nat)
    (hreg : st.registry = pre ++ ("NotificationService", c) :: rest)
    (hpre : loadLoop st.registry config pre st.instances st.ctr = .ok (insts1, ctr1))
    (habs : dictGet st.registry "EmailService" = none) :
    st.load_services config =
      .error (.keyError ("Service " ++ squote ++ "EmailService" ++ squote ++ " not found")) := by
  have hsplit : loadLoop st.registry config st.registry st.instances st.ctr =
      loadLoop st.registry config (pre ++ ("NotificationService", c) :: rest)
        st.instances st.ctr := by
    rw [hreg]
  have happ := loadLoop_append st.registry config pre
    (("NotificationService", c) :: rest) st.instances st.ctr
  rw [hpre] at happ
  have hstep : loadLoop st.registry config (("NotificationService", c) :: rest) insts1 ctr1 =
      .error (.keyError ("Service " ++ squote ++ "EmailService" ++ squote ++ " not found")) := by
    rw [loadLoop, if_pos rfl]
    unfold getService
    rw [habs]
  unfold PState.load_services
  rw [hsplit, happ]
  simp [hstep, Except.map]

/-- C6 witness: a registry holding only `NotificationService` makes
`load_services` fail with the lookup error. -/
theorem c6_witness :
    PState.load_services ⟨[("NotificationService", ServiceClass.notificationService)], [], 0⟩
        demoConfig =
      .error (.keyError ("Service " ++ squote ++ "EmailService" ++ squote ++ " not found")) :=
  c6_wiring_missing_email
    ⟨[("NotificationService", ServiceClass.notificationService)], [], 0⟩
    demoConfig [] ServiceClass.notificationService [] [] 0 rfl rfl rfl

/-- C7 counterexample: `"NotificationService"` is present in the run-time
registry, yet `get_service("NotificationService", config)` does not return
an instance: the one-argument construction raises `TypeError`, so the
claim "returns a newly constructed instance whenever the name is present"
fails at this name. -/
theorem c7_counterexample_notification :
    dictGet demoState.registry "NotificationService" = some .notificationService ∧
    demoState.get_service "NotificationService" demoConfig =
      .error (.typeError ("__init__() missing 1 required positional argument: "
        ++ squote ++ "email_service" ++ squote)) :=
  ⟨rfl, rfl⟩

/-- C7 (amended): `get_service(name, config)` fails with
`KeyError("Service '<name>' not found")` when the name is absent; when the
name maps to a class other than `NotificationService` it returns a freshly
constructed instance of that class; when it maps to `NotificationService`
the construction itself raises `TypeError` instead of returning. -/
theorem c7_get_service_lookup (st : PState) (name : String) (config : ServerConfig) :
    (dictGet st.registry name = none →
      st.get_service name config =
        .error (.keyError ("Service " ++ squote ++ name ++ squote ++ " not found"))) ∧
    (∀ cls, dictGet st.registry name = some cls → cls ≠ .notificationService →
      st.get_service name config =
        .ok (.simple st.ctr cls config, { st with ctr := st.ctr + 1 })) ∧
    (dictGet st.registry name = some .notificationService →
      st.get_service name config =
        .error (.typeError ("__init__() missing 1 required positional argument: "
          ++ squote ++ "email_service" ++ squote))) := by
  refine ⟨?_, ?_, ?_⟩
  · intro h
    unfold PState.get_service getService
    rw [h]
    rfl
  · intro cls h hne
    unfold PState.get_service getService
    rw [h]
    cases cls with
    | notificationService => exact absurd rfl hne
    | baseService => rfl
    | testService => rfl
    | emailService => rfl
  · intro h
    unfold PState.get_service getService
    rw [h]
    rfl

/-- C7 witness: the lookup behaviour at the concrete registry, for a
present simple name and an absent name. -/
theorem c7_witness :
    demoState.get_service "EmailService" demoConfig =
      .ok (.simple 0 .emailService demoConfig, { demoState with ctr := 0 + 1 }) ∧
    demoState.get_service "NoSuchService" demoConfig =
      .error (.keyError ("Service " ++ squote ++ "NoSuchService" ++ squote ++ " not found")) :=
  ⟨(c7_get_service_lookup demoState "EmailService" demoConfig).2.1
      .emailService rfl (by decide),
   (c7_get_service_lookup demoState "NoSuchService" demoConfig).1 rfl⟩

/-- C4: on the configuration holder, every assignment (at construction or
any later reassignment) of a non-string to `host` or a non-integer to
`port` raises a `TypeError` naming the field and the expected type, while
every correctly typed assignment succeeds and the field then reads back
exactly the assigned value. -/
theorem c4_config_type_enforcement (c : ServerConfig) (v w : PyVal) :
    ((∃ s, v = PyVal.vstr s) →
      ∃ c2, c.setHost v = .ok c2 ∧ c2.getHost = v ∧ c2.port = c.port) ∧
    ((∀ s, v ≠ PyVal.vstr s) →
      c.setHost v = .error (.typeError ("Expected " ++ typeRepr .tstr ++ " for " ++ "host"))) ∧
    ((∃ n, w = PyVal.vint n) →
      ∃ c2, c.setPort w = .ok c2 ∧ c2.getPort = w ∧ c2.host = c.host) ∧
    ((∀ n, w ≠ PyVal.vint n) →
      c.setPort w = .error (.typeError ("Expected " ++ typeRepr .tint ++ " for " ++ "port"))) ∧
    ((∃ s, v = PyVal.vstr s) → (∃ n, w = PyVal.vint n) →
      ServerConfig.init v w = .ok { host := v, port := w }) ∧
    ((∀ s, v ≠ PyVal.vstr s) →
      ServerConfig.init v w = .error (.typeError ("Expected " ++ typeRepr .tstr ++ " for " ++ "host"))) ∧
    ((∃ s, v = PyVal.vstr s) → (∀ n, w ≠ PyVal.vint n) →
      ServerConfig.init v w = .error (.typeError ("Expected " ++ typeRepr .tint ++ " for " ++ "port"))) := by
  refine ⟨?_, ?_, ?_, ?_, ?_, ?_, ?_⟩
  · rintro ⟨s, rfl⟩
    exact ⟨_, rfl, rfl, rfl⟩
  · intro hns
    cases v with
    | vstr s => exact absurd rfl (hns s)
    | vint n => rfl
    | vnone => rfl
  · rintro ⟨n, rfl⟩
    exact ⟨_, rfl, rfl, rfl⟩
  · intro hni
    cases w with
    | vint n => exact absurd rfl (hni n)
    | vstr s => rfl
    | vnone => rfl
  · rintro ⟨s, rfl⟩ ⟨n, rfl⟩
    rfl
  · intro hns
    cases v with
    | vstr s => exact absurd rfl (hns s)
    | vint n => rfl
    | vnone => rfl
  · rintro ⟨s, rfl⟩ hni
    cases w with
    | vint n => exact absurd rfl (hni n)
    | vstr s2 => rfl
    | vnone => rfl

/-- C4 witness: concrete assignments on the `run.py` configuration. -/
theorem c4_witness :
    (demoConfig.setHost (PyVal.vint 3) =
      .error (.typeError ("Expected " ++ typeRepr .tstr ++ " for " ++ "host"))) ∧
    (∃ c2, demoConfig.setPort (PyVal.vint 9000) = .ok c2 ∧
      c2.getPort = PyVal.vint 9000 ∧ c2.host = demoConfig.host) ∧
    ServerConfig.init (PyVal.vstr "localhost") (PyVal.vstr "8000") =
      .error (.typeError ("Expected " ++ typeRepr .tint ++ " for " ++ "port")) :=
  ⟨(c4_config_type_enforcement demoConfig (PyVal.vint 3) (PyVal.vint 9000)).2.1
      (fun s h => by cases h),
   (c4_config_type_enforcement demoConfig (PyVal.vint 3) (PyVal.vint 9000)).2.2.1
      ⟨9000, rfl⟩,
   (c4_config_type_enforcement demoConfig (PyVal.vstr "localhost")
      (PyVal.vstr "8000")).2.2.2.2.2.2 ⟨"localhost", rfl⟩
      (fun n h => by cases h)⟩

/-- C8: used as a scoped resource, entering the scope calls `start()` and
exiting calls `stop()` on both the normal and the exceptional exit path;
if `start()` itself raises on entry, `stop()` never runs. -/
theorem c8_scoped_resource (svc : HookedService) (body : Option PyErr) :
    (svc.on_startup = none →
      (withStatement svc body).1 =
        [LifeEvent.startCalled svc.id, LifeEvent.stopCalled svc.id]) ∧
    (svc.on_startup = none → ∀ e, body = some e →
      LifeEvent.stopCalled svc.id ∈ (withStatement svc body).1) ∧
    (∀ e, svc.on_startup = some e →
      LifeEvent.stopCalled svc.id ∉ (withStatement svc body).1) := by
  refine ⟨?_, ?_, ?_⟩
  · intro h
    simp [withStatement, HookedService.startResult, h]
  · intro h e _
    simp [withStatement, HookedService.startResult, h]
  · intro e h
    simp [withStatement, HookedService.startResult, h]

/-- C8 witness: a body that raises still sees `stop()` run, while a failing
`start()` is not followed by `stop()`. -/
theorem c8_witness :
    (withStatement ⟨0, none, none⟩ (some (PyErr.typeError "boom"))).1 =
      [LifeEvent.startCalled 0, LifeEvent.stopCalled 0] ∧
    LifeEvent.stopCalled 1 ∉
      (withStatement ⟨1, some (PyErr.typeError "entry failed"), none⟩ none).1 :=
  ⟨(c8_scoped_resource ⟨0, none, none⟩ (some (PyErr.typeError "boom"))).1 rfl,
   (c8_scoped_resource ⟨1, some (PyErr.typeError "entry failed"), none⟩ none).2.2
      (PyErr.typeError "entry failed") rfl⟩

/-- C1 counterexample: in the `run.py` run, `stop_all` never emits a line
containing the message `Notification service stopping...` — the shutdown
log message is `Notification stopping...` (printed as
`[LOG]: Notification stopping...`), as the explicit output listing shows. -/
theorem c1_counterexample_stop_line :
    stopAllLines demoInstances =
      ["TestService is shutting down...", "TestService stopped.",
       "Closing SMTP...", "EmailService stopped.",
       "[LOG]: Notification stopping...", "Closing SMTP...", "EmailService stopped.",
       "NotificationService stopped."] ∧
    (stopAllLines demoInstances).contains "Notification service stopping..." = false ∧
    (stopAllLines demoInstances).contains
      (logLine "Notification service stopping...") = false := by
  exact ⟨rfl, rfl, rfl⟩

/-- C1 (amended): in the end-to-end run the registry holds exactly
{TestService, EmailService, NotificationService}, `load_services` produces
exactly 3 instances, `start_all` emits the logged line
`Notification service running at localhost:8000` before an `EmailService`
startup announcement, and `stop_all` emits the logged line
`Notification stopping...` before an `EmailService` shutdown
announcement. -/
theorem c1_end_to_end_run :
    dictKeys moduleRegistry = ["TestService", "EmailService", "NotificationService"] ∧
    demoState.load_services demoConfig = .ok ⟨moduleRegistry, demoInstances, 4⟩ ∧
    demoInstances.length = 3 ∧
    occursBefore (logLine "Notification service running at localhost:8000")
      "EmailService started." (startAllLines demoInstances) = true ∧
    occursBefore (logLine "Notification stopping...")
      "EmailService stopped." (stopAllLines demoInstances) = true := by
  refine ⟨rfl, rfl, rfl, by decide, by decide⟩
